import Mathlib

set_option linter.unusedVariables false

/-!
Verification development for an 8080-class CPU emulator
(sources: registers.rs, memory.rs, op_code.rs, cpu.rs).

Modelling conventions:
* Machine integers (u8, u16, u32) are modelled as Nat with explicit
  truncation (% 256, % 65536) exactly where the Rust code wraps
  (Wrapping arithmetic, as-casts).
* Rust panics (index out of bounds, unknown selector arms,
  the unimplemented halt stub, unknown op codes) are modelled as
  Option.none, and at the dispatch level as Except.error with the
  panic message of the source.
* Sequential Rust matches over numeric selectors are modelled as
  if-chains in the same arm order.
-/

/-- Fuel-driven binary digit sum; fuel n is always enough for n itself. -/
def count_ones_below : Nat → Nat → Nat
  | 0, _ => 0
  | fuel+1, n => if n = 0 then 0 else n % 2 + count_ones_below fuel (n / 2)

/-- Model of Rust count_ones (population count) on the numeric value. -/
def count_ones (n : Nat) : Nat := count_ones_below n n

/-- registers.rs: the seven 8-bit registers (u8 cells, values < 256). -/
structure Registers where
  acc : Nat
  b : Nat
  c : Nat
  d : Nat
  e : Nat
  h : Nat
  l : Nat
deriving DecidableEq

/-- registers.rs: the five condition flags. -/
structure Flags where
  zero : Bool
  sign : Bool
  parity : Bool
  carry : Bool
  aux_carry : Bool
deriving DecidableEq

/-- memory.rs: Memory wraps the loaded byte vector (mapping: Vec of u8). -/
structure Memory where
  mapping : List Nat
deriving DecidableEq

/-- op_code.rs: an OpCode wraps one fetched byte. -/
structure OpCode where
  value : Nat
deriving DecidableEq

/-- memory.rs: N_BYTES constant. -/
def N_BYTES : Nat := 65536

def Registers.new : Registers := ⟨0, 0, 0, 0, 0, 0, 0⟩

def Registers.get_hl (r : Registers) : Nat := (r.h <<< 8) ||| r.l

def Registers.get_de (r : Registers) : Nat := (r.d <<< 8) ||| r.e

def Registers.get_bc (r : Registers) : Nat := (r.b <<< 8) ||| r.c

/-- Modelled from the spec: the register-pair setters set_hl, set_de, set_bc
are called from cpu.rs but are missing from registers.rs; section 4.2 says
setters split a 16-bit value back into the two cells, high byte first. -/
def Registers.set_hl (r : Registers) (v : Nat) : Registers :=
  { r with h := v / 256, l := v % 256 }

/-- Modelled from the spec: see Registers.set_hl. -/
def Registers.set_de (r : Registers) (v : Nat) : Registers :=
  { r with d := v / 256, e := v % 256 }

/-- Modelled from the spec: see Registers.set_hl. -/
def Registers.set_bc (r : Registers) (v : Nat) : Registers :=
  { r with b := v / 256, c := v % 256 }

def Flags.new : Flags := ⟨false, false, false, false, false⟩

/-- registers.rs set_zero: zero iff value.count_ones() == 0 (the full value). -/
def Flags.set_zero (f : Flags) (value : Nat) : Flags :=
  { f with zero := count_ones value == 0 }

/-- registers.rs set_parity: even population count of the full value. -/
def Flags.set_parity (f : Flags) (value : Nat) : Flags :=
  { f with parity := count_ones value % 2 == 0 }

/-- registers.rs set_sign: bit 7 of the value. -/
def Flags.set_sign (f : Flags) (value : Nat) : Flags :=
  { f with sign := value &&& 0x80 != 0 }

/-- registers.rs set_carry: value exceeds 0xFF. -/
def Flags.set_carry (f : Flags) (value : Nat) : Flags :=
  { f with carry := decide (0xFF < value) }

/-- registers.rs set_all: zero, sign, parity, carry in that order. -/
def Flags.set_all (f : Flags) (value : Nat) : Flags :=
  (((f.set_zero value).set_sign value).set_parity value).set_carry value

/-- registers.rs set_single_registry_operation_flags: zero, sign, parity only. -/
def Flags.set_single_registry_operation_flags (f : Flags) (value : Nat) : Flags :=
  ((f.set_zero value).set_sign value).set_parity value

/-- Modelled from the spec: Flags.set_carry_on_double is called from cpu.rs
double_add but is missing from registers.rs; section 4.2 says carry true iff
the 32-bit sum exceeds 0xFFFF (only carry is touched). -/
def Flags.set_carry_on_double (f : Flags) (value : Nat) : Flags :=
  { f with carry := decide (0xFFFF < value) }

def Memory.new (memory : List Nat) : Memory := ⟨memory⟩

def Memory.instructions_len (m : Memory) : Nat := m.mapping.length

/-- memory.rs fetch_byte_at_offset: Vec indexing; out of bounds is a panic (none). -/
def Memory.fetch_byte_at_offset (m : Memory) (pointer : Nat) : Option Nat :=
  m.mapping[pointer]?

/-- memory.rs set_byte_at_offset: Vec indexing; out of bounds is a panic (none). -/
def Memory.set_byte_at_offset (m : Memory) (pointer value : Nat) : Option Memory :=
  if pointer < m.mapping.length then some ⟨m.mapping.set pointer value⟩ else none

/-- op_code.rs extract_registry_pair_description. -/
def OpCode.extract_registry_pair_description (o : OpCode) : Nat :=
  (o.value &&& 0b00010000) >>> 4

/-- op_code.rs extract_single_registry_operation. -/
def OpCode.extract_single_registry_operation (o : OpCode) : Nat :=
  (o.value &&& 0b11000000) >>> 6

/-- op_code.rs extract_first_operand. -/
def OpCode.extract_first_operand (o : OpCode) : Nat :=
  (o.value &&& 0b00111000) >>> 3

/-- op_code.rs extract_second_operand. -/
def OpCode.extract_second_operand (o : OpCode) : Nat :=
  o.value &&& 0b00000111

/-- Modelled from the spec: extract_jmp_description is called from cpu.rs
jump_to_address but is missing from op_code.rs; section 4.1 says a secondary
discriminant distinguishes unconditional JMP (0xC3) from conditional
JNZ (0xC2) within the first-operand-0 class; those two differ in the low
opcode bit only. -/
def OpCode.extract_jmp_description (o : OpCode) : Nat :=
  o.value &&& 0b00000001

/-- cpu.rs Cpu state. -/
structure Cpu where
  stack_pointer : Nat
  program_counter : Nat
  registers : Registers
  flags : Flags
  memory : Memory
deriving DecidableEq

def Cpu.new (memory : Memory) : Cpu :=
  ⟨0, 0, Registers.new, Flags.new, memory⟩

/-- Read side of cpu.rs extract_register_address (the source returns a
mutable reference; reads and writes are modelled separately). Arm order of
the source match is kept; the fall-through arm panics (none). -/
def Registers.read_register_address (r : Registers) (encoded : Nat) : Option Nat :=
  if encoded = 0b0 then some r.b
  else if encoded = 0b001 then some r.c
  else if encoded = 0b010 then some r.d
  else if encoded = 0b011 then some r.e
  else if encoded = 0b100 then some r.h
  else if encoded = 0b101 then some r.l
  else if encoded = 0b111 then some r.acc
  else none

/-- Write side of cpu.rs extract_register_address. -/
def Registers.write_register_address (r : Registers) (encoded value : Nat) : Option Registers :=
  if encoded = 0b0 then some { r with b := value }
  else if encoded = 0b001 then some { r with c := value }
  else if encoded = 0b010 then some { r with d := value }
  else if encoded = 0b011 then some { r with e := value }
  else if encoded = 0b100 then some { r with h := value }
  else if encoded = 0b101 then some { r with l := value }
  else if encoded = 0b111 then some { r with acc := value }
  else none

/-- cpu.rs extract_memory_or_register. -/
def Cpu.extract_memory_or_register (cpu : Cpu) (encoded_source : Nat) : Option Nat :=
  if encoded_source = 0b110 then
    cpu.memory.fetch_byte_at_offset cpu.registers.get_hl
  else
    cpu.registers.read_register_address encoded_source

/-- cpu.rs set_memory_or_register. -/
def Cpu.set_memory_or_register (cpu : Cpu) (encoded_address value : Nat) : Option Cpu :=
  if encoded_address = 0b110 then
    match cpu.memory.set_byte_at_offset cpu.registers.get_hl value with
    | some m => some { cpu with memory := m }
    | none => none
  else
    match cpu.registers.write_register_address encoded_address value with
    | some r => some { cpu with registers := r }
    | none => none

/-- cpu.rs add: 16-bit sum of acc, value and carry-in; set_all; acc gets the
low byte (as-u8 cast). -/
def Cpu.add (cpu : Cpu) (value : Nat) (carry : Bool) : Cpu :=
  let result : Nat := cpu.registers.acc + value + (if carry then 1 else 0)
  { cpu with flags := cpu.flags.set_all result,
             registers := { cpu.registers with acc := result % 256 } }

/-- cpu.rs subtract: 16-bit wrapping subtraction acc - (value + carry);
set_all; acc gets the low byte. -/
def Cpu.subtract (cpu : Cpu) (value : Nat) (carry : Bool) : Cpu :=
  let result : Nat :=
    (cpu.registers.acc + 65536 - (value + (if carry then 1 else 0))) % 65536
  { cpu with flags := cpu.flags.set_all result,
             registers := { cpu.registers with acc := result % 256 } }

/-- cpu.rs and. -/
def Cpu.and (cpu : Cpu) (value : Nat) : Cpu :=
  let result : Nat := cpu.registers.acc &&& value
  { cpu with flags := cpu.flags.set_all result,
             registers := { cpu.registers with acc := result % 256 } }

/-- cpu.rs or. -/
def Cpu.or (cpu : Cpu) (value : Nat) : Cpu :=
  let result : Nat := cpu.registers.acc ||| value
  { cpu with flags := cpu.flags.set_all result,
             registers := { cpu.registers with acc := result % 256 } }

/-- cpu.rs xor. -/
def Cpu.xor (cpu : Cpu) (value : Nat) : Cpu :=
  let result : Nat := cpu.registers.acc ^^^ value
  { cpu with flags := cpu.flags.set_all result,
             registers := { cpu.registers with acc := result % 256 } }

/-- cpu.rs comparison: 8-bit wrapping subtraction of acc and value, widened
to 16 bits for set_all; the accumulator is not written. -/
def Cpu.comparison (cpu : Cpu) (value : Nat) : Cpu :=
  let result : Nat := (cpu.registers.acc + 256 - value) % 256
  { cpu with flags := cpu.flags.set_all result }

/-- cpu.rs rotate_acc: RLC (0) and RRC (1); other directions panic. -/
def Cpu.rotate_acc (cpu : Cpu) (direction : Nat) : Option Cpu :=
  if direction = 0b0 then
    some { cpu with
      flags := { cpu.flags with carry := cpu.registers.acc &&& 0b10000000 != 0 },
      registers := { cpu.registers with
        acc := ((cpu.registers.acc <<< 1) ||| (cpu.registers.acc >>> 7)) % 256 } }
  else if direction = 0b01 then
    some { cpu with
      flags := { cpu.flags with carry := cpu.registers.acc &&& 0b00000001 != 0 },
      registers := { cpu.registers with
        acc := ((cpu.registers.acc >>> 1) ||| ((cpu.registers.acc <<< 7) % 256)) } }
  else none

/-- cpu.rs change_single_registry_value. -/
def Cpu.change_single_registry_value (cpu : Cpu) (encoded_address value : Nat) : Option Cpu :=
  let cpu1 := { cpu with flags := cpu.flags.set_single_registry_operation_flags value }
  cpu1.set_memory_or_register encoded_address value

/-- cpu.rs double_add: DAD; pair selector arms 1/3/5/7, others panic. -/
def Cpu.double_add (cpu : Cpu) (address : Nat) : Option Cpu :=
  let pair : Option Nat :=
    if address = 0b001 then some cpu.registers.get_bc
    else if address = 0b011 then some cpu.registers.get_de
    else if address = 0b101 then some cpu.registers.get_hl
    else if address = 0b111 then some cpu.stack_pointer
    else none
  match pair with
  | none => none
  | some value =>
    let result : Nat := cpu.registers.get_hl + value
    some { cpu with flags := cpu.flags.set_carry_on_double result,
                    registers := cpu.registers.set_hl (result % 65536) }

/-- cpu.rs increment_double: INX with 16-bit wraparound. -/
def Cpu.increment_double (cpu : Cpu) (address : Nat) : Option Cpu :=
  if address = 0b0 then
    some { cpu with registers := cpu.registers.set_bc ((cpu.registers.get_bc + 1) % 65536) }
  else if address = 0b010 then
    some { cpu with registers := cpu.registers.set_de ((cpu.registers.get_de + 1) % 65536) }
  else if address = 0b100 then
    some { cpu with registers := cpu.registers.set_hl ((cpu.registers.get_hl + 1) % 65536) }
  else if address = 0b110 then
    some { cpu with stack_pointer := (cpu.stack_pointer + 1) % 65536 }
  else none

/-- cpu.rs push_on_stack: high byte to sp-1, low byte to sp-2, sp -= 2;
for selector 6 the low byte packs the flags (bit7 sign, bit6 zero, bit4
aux, bit2 parity, bit1 fixed 1, bit0 carry). Underflow of the u16 stack
pointer is a panic (none). -/
def Cpu.push_on_stack (cpu : Cpu) (address : Nat) : Option Cpu :=
  let pair : Option (Nat × Nat) :=
    if address = 0b0 then some (cpu.registers.b, cpu.registers.c)
    else if address = 0b010 then some (cpu.registers.d, cpu.registers.e)
    else if address = 0b100 then some (cpu.registers.h, cpu.registers.l)
    else if address = 0b110 then
      some (cpu.registers.acc,
        ((if cpu.flags.sign then 1 else 0) <<< 7) |||
        ((if cpu.flags.zero then 1 else 0) <<< 6) |||
        ((if cpu.flags.aux_carry then 1 else 0) <<< 4) |||
        ((if cpu.flags.parity then 1 else 0) <<< 2) |||
        0b00000010 |||
        (if cpu.flags.carry then 1 else 0))
    else none
  match pair with
  | none => none
  | some (upper, lower) =>
    if cpu.stack_pointer = 0 then none
    else
      match cpu.memory.set_byte_at_offset (cpu.stack_pointer - 1) upper with
      | none => none
      | some m1 =>
        if cpu.stack_pointer < 2 then none
        else
          match m1.set_byte_at_offset (cpu.stack_pointer - 2) lower with
          | none => none
          | some m2 =>
            some { cpu with memory := m2, stack_pointer := cpu.stack_pointer - 2 }

/-- cpu.rs pop_off_stack: reads at sp and sp+1, writes the destination
(for selector 6 the flag bits are reconstructed with u8 left shifts exactly
as the source does), then sp += 2. -/
def Cpu.pop_off_stack (cpu : Cpu) (destination : Nat) : Option Cpu :=
  match cpu.memory.fetch_byte_at_offset cpu.stack_pointer with
  | none => none
  | some upper =>
    match cpu.memory.fetch_byte_at_offset (cpu.stack_pointer + 1) with
    | none => none
    | some lower =>
      let stepped : Option Cpu :=
        if destination = 0b0 then
          some { cpu with registers := { cpu.registers with b := lower, c := upper } }
        else if destination = 0b010 then
          some { cpu with registers := { cpu.registers with d := lower, e := upper } }
        else if destination = 0b100 then
          some { cpu with registers := { cpu.registers with h := lower, l := upper } }
        else if destination = 0b110 then
          some { cpu with
            registers := { cpu.registers with acc := lower },
            flags := { sign := (upper <<< 7) % 256 != 0,
                       zero := (upper <<< 6) % 256 != 0,
                       aux_carry := (upper <<< 4) % 256 != 0,
                       parity := (upper <<< 2) % 256 != 0,
                       carry := upper != 0 } }
        else none
      match stepped with
      | none => none
      | some cpu1 => some { cpu1 with stack_pointer := cpu1.stack_pointer + 2 }

/-- cpu.rs fetch_operand_addressed_memory: msb at pc+2, lsb at pc+1, pc += 2. -/
def Cpu.fetch_operand_addressed_memory (cpu : Cpu) : Option (Nat × Cpu) :=
  match cpu.memory.fetch_byte_at_offset (cpu.program_counter + 2) with
  | none => none
  | some msb =>
    match cpu.memory.fetch_byte_at_offset (cpu.program_counter + 1) with
    | none => none
    | some lsb =>
      some ((msb <<< 8) ||| lsb, { cpu with program_counter := cpu.program_counter + 2 })

/-- cpu.rs jump_to_address: condition selected by the first operand, then
pc := address when satisfied, then pc += 1 in every case. -/
def Cpu.jump_to_address (cpu : Cpu) (op_code : OpCode) : Option Cpu :=
  let instruction := op_code.extract_first_operand
  match cpu.fetch_operand_addressed_memory with
  | none => none
  | some (address, cpu1) =>
    let result : Option Bool :=
      if instruction = 0b0 then
        some (if op_code.extract_jmp_description > 0 then true
              else if !cpu1.flags.zero then true else false)
      else if instruction = 0b001 then some cpu1.flags.zero
      else if instruction = 0b010 then some (!cpu1.flags.carry)
      else if instruction = 0b011 then some cpu1.flags.carry
      else if instruction = 0b100 then some (!cpu1.flags.parity)
      else if instruction = 0b101 then some cpu1.flags.parity
      else if instruction = 0b110 then some (!cpu1.flags.sign)
      else if instruction = 0b111 then some cpu1.flags.sign
      else none
    match result with
    | none => none
    | some r =>
      let cpu2 := if r then { cpu1 with program_counter := address } else cpu1
      some { cpu2 with program_counter := cpu2.program_counter + 1 }

/-- cpu.rs load_acc_direct (LDA). -/
def Cpu.load_acc_direct (cpu : Cpu) (op_code : OpCode) : Option Cpu :=
  match cpu.fetch_operand_addressed_memory with
  | none => none
  | some (address, cpu1) =>
    match cpu1.memory.fetch_byte_at_offset address with
    | none => none
    | some value =>
      some { cpu1 with registers := { cpu1.registers with acc := value } }

/-- cpu.rs store_acc_direct (STA). -/
def Cpu.store_acc_direct (cpu : Cpu) (op_code : OpCode) : Option Cpu :=
  match cpu.fetch_operand_addressed_memory with
  | none => none
  | some (address, cpu1) =>
    match cpu1.memory.set_byte_at_offset address cpu1.registers.acc with
    | none => none
    | some m => some { cpu1 with memory := m }

/-- cpu.rs exchange_registers (XCHG). -/
def Cpu.exchange_registers (cpu : Cpu) (op_code : OpCode) : Cpu :=
  { cpu with
    registers := { cpu.registers with
      h := cpu.registers.d, d := cpu.registers.h,
      l := cpu.registers.e, e := cpu.registers.l },
    program_counter := cpu.program_counter + 1 }

/-- cpu.rs load_accumulator (indirect, selector 0 gives DE else BC). -/
def Cpu.load_accumulator (cpu : Cpu) (op_code : OpCode) : Option Cpu :=
  let registry_pair := op_code.extract_registry_pair_description
  let address := if registry_pair = 0 then cpu.registers.get_de else cpu.registers.get_bc
  match cpu.memory.fetch_byte_at_offset address with
  | none => none
  | some value =>
    some { cpu with registers := { cpu.registers with acc := value },
                    program_counter := cpu.program_counter + 1 }

/-- cpu.rs move_immediate (MVI): pc += 1, fetch the data byte at pc, store. -/
def Cpu.move_immediate (cpu : Cpu) (address : Nat) : Option Cpu :=
  let cpu1 := { cpu with program_counter := cpu.program_counter + 1 }
  match cpu1.memory.fetch_byte_at_offset cpu1.program_counter with
  | none => none
  | some data => cpu1.set_memory_or_register address data

/-- cpu.rs immediate_arithmetic: pc += 1, fetch data, dispatch on the
first-operand selector (arm order of the source match kept). -/
def Cpu.immediate_arithmetic (cpu : Cpu) (operation : Nat) : Option Cpu :=
  let cpu1 := { cpu with program_counter := cpu.program_counter + 1 }
  match cpu1.memory.fetch_byte_at_offset cpu1.program_counter with
  | none => none
  | some data =>
    if operation = 0b0 then some (cpu1.add data false)
    else if operation = 0b100 then some (cpu1.and data)
    else if operation = 0b111 then some (cpu1.comparison data)
    else if operation = 0b001 then some (cpu1.add data true)
    else if operation = 0b010 then some (cpu1.subtract data false)
    else if operation = 0b011 then some (cpu1.subtract data true)
    else if operation = 0b101 then some (cpu1.xor data)
    else if operation = 0b110 then some (cpu1.or data)
    else none

/-- cpu.rs single_operand_operation: sub-dispatch on (operation class,
second operand), then pc += 1 after the matched action. -/
def Cpu.single_operand_operation (cpu : Cpu) (op_code : OpCode) : Option Cpu :=
  let op1 := op_code.extract_single_registry_operation
  let op2 := op_code.extract_second_operand
  let encoded_address := op_code.extract_first_operand
  let stepped : Option Cpu :=
    if op1 = 0b0 ∧ op2 = 0b100 then
      match cpu.extract_memory_or_register encoded_address with
      | none => none
      | some value => cpu.change_single_registry_value encoded_address ((value + 1) % 256)
    else if op1 = 0b0 ∧ op2 = 0b101 then
      match cpu.extract_memory_or_register encoded_address with
      | none => none
      | some value => cpu.change_single_registry_value encoded_address ((value + 255) % 256)
    else if op1 = 0b0 ∧ op2 = 0b111 then cpu.rotate_acc encoded_address
    else if op1 = 0b0 ∧ op2 = 0b001 then cpu.double_add encoded_address
    else if op1 = 0b0 ∧ op2 = 0b011 then cpu.increment_double encoded_address
    else if op1 = 0b11 ∧ op2 = 0b101 then cpu.push_on_stack encoded_address
    else if op1 = 0b11 ∧ op2 = 0b1 then cpu.pop_off_stack encoded_address
    else if op1 = 0b0 ∧ op2 = 0b110 then cpu.move_immediate encoded_address
    else if op1 = 0b11 ∧ op2 = 0b110 then cpu.immediate_arithmetic encoded_address
    else none
  match stepped with
  | none => none
  | some cpu1 => some { cpu1 with program_counter := cpu1.program_counter + 1 }

/-- cpu.rs extract_source_value. -/
def Cpu.extract_source_value (cpu : Cpu) (op_code : OpCode) : Option Nat :=
  cpu.extract_memory_or_register op_code.extract_second_operand

/-- cpu.rs transfer (MOV family): read source, write destination, pc += 1. -/
def Cpu.transfer (cpu : Cpu) (op_code : OpCode) : Option Cpu :=
  match cpu.extract_source_value op_code with
  | none => none
  | some source =>
    match cpu.set_memory_or_register op_code.extract_first_operand source with
    | none => none
    | some cpu1 => some { cpu1 with program_counter := cpu1.program_counter + 1 }

/-- cpu.rs arithmetic_operation: operation from the first operand, operand
from the second; the fall-through arm of the source only prints and
continues, so it is the identity here; pc += 1 afterwards. -/
def Cpu.arithmetic_operation (cpu : Cpu) (op_code : OpCode) : Option Cpu :=
  let encoded_operation := op_code.extract_first_operand
  let encoded_addend := op_code.extract_second_operand
  match cpu.extract_memory_or_register encoded_addend with
  | none => none
  | some value =>
    let cpu1 : Cpu :=
      if encoded_operation = 0b000 then cpu.add value false
      else if encoded_operation = 0b001 then cpu.add value cpu.flags.carry
      else if encoded_operation = 0b010 then cpu.subtract value false
      else if encoded_operation = 0b011 then cpu.subtract value cpu.flags.carry
      else if encoded_operation = 0b100 then cpu.and value
      else if encoded_operation = 0b101 then cpu.xor value
      else if encoded_operation = 0b110 then cpu.or value
      else if encoded_operation = 0b111 then cpu.comparison value
      else cpu
    some { cpu1 with program_counter := cpu1.program_counter + 1 }

/-- cpu.rs halt: the body is the unimplemented macro, i.e. a panic with
message "not implemented". -/
def Cpu.halt (cpu : Cpu) : Except String Cpu :=
  Except.error "not implemented"

/-- Panics from the Option-modelled helpers, seen at the dispatch level. -/
def ofOption (o : Option Cpu) : Except String Cpu :=
  match o with
  | some c => Except.ok c
  | none => Except.error "panic"

/-- cpu.rs execute: top-level dispatch, arm order of the source match kept
(narrow patterns first, then the ranges, then the fatal default). -/
def Cpu.execute (cpu : Cpu) (op_code : OpCode) : Except String Cpu :=
  let v := op_code.value
  if v = 0x00 then Except.ok { cpu with program_counter := cpu.program_counter + 1 }
  else if v = 0x37 then
    Except.ok { cpu with flags := { cpu.flags with carry := true },
                         program_counter := cpu.program_counter + 1 }
  else if v = 0x3f then
    Except.ok { cpu with flags := { cpu.flags with carry := !cpu.flags.carry },
                         program_counter := cpu.program_counter + 1 }
  else if v = 0x76 then cpu.halt
  else if v = 0x0a ∨ v = 0x1a then ofOption (cpu.load_accumulator op_code)
  else if v = 0x32 then ofOption (cpu.store_acc_direct op_code)
  else if v = 0x3a then ofOption (cpu.load_acc_direct op_code)
  else if 0x01 ≤ v ∧ v ≤ 0x3e then ofOption (cpu.single_operand_operation op_code)
  else if 0x40 ≤ v ∧ v ≤ 0x7f then ofOption (cpu.transfer op_code)
  else if 0x80 ≤ v ∧ v ≤ 0xbf then ofOption (cpu.arithmetic_operation op_code)
  else if v = 0xc5 ∨ v = 0xd5 ∨ v = 0xe5 ∨ v = 0xf5 ∨ v = 0xc6 ∨ v = 0xe6 ∨ v = 0xfe then
    ofOption (cpu.single_operand_operation op_code)
  else if v = 0xc2 ∨ v = 0xc3 ∨ v = 0xca ∨ v = 0xd2 ∨ v = 0xda ∨
          v = 0xe2 ∨ v = 0xea ∨ v = 0xf2 ∨ v = 0xfa then
    ofOption (cpu.jump_to_address op_code)
  else if v = 0xeb then Except.ok (cpu.exchange_registers op_code)
  else Except.error "Unknown op code"

/-! ## Theorems -/

/-- Claim C1: the claim says set_all makes the zero flag true iff the low
8 bits of the 16-bit result are 0, regardless of the high byte. The code
computes zero from the population count of the full 16-bit value, so the
result 0x100 (an add of accumulator 0xFF and operand 1) has a zero low
byte yet leaves the zero flag false. -/
theorem c1_zero_flag_counterexample :
    (Flags.new.set_all 0x100).zero = false ∧ 0x100 % 256 = 0 ∧
    ((({ Cpu.new (Memory.new []) with
        registers := { Registers.new with acc := 255 } }).add 1 false).flags.zero = false) ∧
    ((({ Cpu.new (Memory.new []) with
        registers := { Registers.new with acc := 255 } }).add 1 false).registers.acc = 0) := by
  decide

/-- Claim C2: the claim says comparison(value) sets all flags exactly as
subtract(value, false) would, in particular carry true on borrow. With
accumulator 2 and operand 3 (a borrow), comparison leaves carry false
(its 8-bit wrapped result 0xFF never exceeds 0xFF) while subtract sets
carry true; the accumulator is indeed unchanged by comparison. -/
theorem c2_comparison_carry_counterexample :
    ((({ Cpu.new (Memory.new []) with
        registers := { Registers.new with acc := 2 } }).comparison 3).flags.carry = false) ∧
    ((({ Cpu.new (Memory.new []) with
        registers := { Registers.new with acc := 2 } }).comparison 3).registers.acc = 2) ∧
    ((({ Cpu.new (Memory.new []) with
        registers := { Registers.new with acc := 2 } }).subtract 3 false).flags.carry = true) := by
  decide

/-- Claim C3: the claim says push then pop of the accumulator+flags
composite restores each of the five flags exactly. Starting from all
flags false (status byte 0b00000010 is pushed), the pop reconstructs the
flags with u8 left shifts, so the fixed bit 1 makes the zero flag read
back true: the round trip does not restore the flags. -/
theorem c3_push_pop_flags_counterexample :
    ((({ Cpu.new (Memory.new [0, 0]) with stack_pointer := 2 }).push_on_stack 0b110).bind
        (fun c : Cpu => c.pop_off_stack 0b110)).map (fun c : Cpu => c.flags.zero) = some true ∧
    ({ Cpu.new (Memory.new [0, 0]) with stack_pointer := 2 } : Cpu).flags.zero = false := by
  decide

/-- Claim C5 (amended): executing opcode 0x76 terminates emulation with the
fatal error of the unimplemented halt stub ("not implemented"), not as a
successful non-error termination; the message differs from the
"Unknown op code" decode error. -/
theorem c5_halt_is_error (cpu : Cpu) :
    cpu.execute ⟨0x76⟩ = Except.error "not implemented" ∧
    "not implemented" ≠ "Unknown op code" :=
  ⟨rfl, by decide⟩

/-- Claim C5: counterexample to the claim as stated — on a concrete state,
executing 0x76 yields an error outcome, not a successful termination. -/
theorem c5_halt_counterexample :
    (Cpu.new (Memory.new [0x76])).execute ⟨0x76⟩ = Except.error "not implemented" := rfl

/-- Claim C6: the claim says opcodes 0xC1/0xD1/0xE1/0xF1 perform a pop.
The top-level dispatch never routes them to single_operand_operation
(whose pop arm is dead code), so each of them hits the fatal
"Unknown op code" default. -/
theorem c6_pop_dispatch_counterexample :
    ((Cpu.new (Memory.new [0xc1])).execute ⟨0xc1⟩ = Except.error "Unknown op code") ∧
    ((Cpu.new (Memory.new [0xd1])).execute ⟨0xd1⟩ = Except.error "Unknown op code") ∧
    ((Cpu.new (Memory.new [0xe1])).execute ⟨0xe1⟩ = Except.error "Unknown op code") ∧
    ((Cpu.new (Memory.new [0xf1])).execute ⟨0xf1⟩ = Except.error "Unknown op code") :=
  ⟨rfl, rfl, rfl, rfl⟩

/-- Claim C7: with the accumulator holding a and carry-in false,
add(b, false) leaves the accumulator at (a + b) mod 256 and sets carry
true iff a + b exceeds 255. -/
theorem c7_add_spec (cpu : Cpu) (b : Nat)
    (ha : cpu.registers.acc < 256) (hb : b < 256) :
    (cpu.add b false).registers.acc = (cpu.registers.acc + b) % 256 ∧
    ((cpu.add b false).flags.carry = true ↔ 255 < cpu.registers.acc + b) := by
  unfold Cpu.add Flags.set_all Flags.set_carry Flags.set_parity Flags.set_sign Flags.set_zero
  simp

/-- Claim C7 witness: accumulator 8 plus operand 12. -/
theorem c7_add_spec_witness :
    ((({ Cpu.new (Memory.new []) with
        registers := { Registers.new with acc := 8 } }).add 12 false).registers.acc
      = (8 + 12) % 256) ∧
    (((({ Cpu.new (Memory.new []) with
        registers := { Registers.new with acc := 8 } }).add 12 false).flags.carry = true)
      ↔ 255 < 8 + 12) :=
  c7_add_spec _ 12 (by decide) (by decide)

/-- Claim C8: counterexample to the claim as stated — after construction
with a 1-byte image the memory has exactly 1 cell, not 65536, and fetching
the 16-bit offset 1 (past the image's end) fails rather than returning a
byte. -/
theorem c8_memory_counterexample :
    (Memory.new [0x76]).instructions_len = 1 ∧
    ¬ (Memory.new [0x76]).instructions_len = 65536 ∧
    (Memory.new [0x76]).fetch_byte_at_offset 1 = none := by
  decide

/-- Claim C8 (amended): after construction the memory consists of exactly
the image bytes (its length is the image length, with no zero padding);
fetching an offset inside the image returns that byte, and fetching any
offset past the image's end is a fatal bounds error. -/
theorem c8_memory_exact_image (img : List Nat) (i : Nat) :
    (Memory.new img).instructions_len = img.length ∧
    (i < img.length → (Memory.new img).fetch_byte_at_offset i = some (img.getD i 0)) ∧
    (img.length ≤ i → (Memory.new img).fetch_byte_at_offset i = none) := by
  refine ⟨rfl, fun h => ?_, fun h => ?_⟩
  · simp [Memory.new, Memory.fetch_byte_at_offset, List.getElem?_eq_getElem h]
  · simp [Memory.new, Memory.fetch_byte_at_offset, List.getElem?_eq_none h]

/-- Claim C8 witness: a concrete 1-byte image, probed inside and past the
image. -/
theorem c8_memory_exact_image_witness :
    ((Memory.new [7]).fetch_byte_at_offset 0 = some ([7].getD 0 0)) ∧
    ((Memory.new [7]).fetch_byte_at_offset 1 = none) :=
  ⟨(c8_memory_exact_image [7] 0).2.1 (by decide), (c8_memory_exact_image [7] 1).2.2 (by decide)⟩

/-- Helper: an 8-bit disjoint or is an addition. -/
theorem shiftLeft_eight_or_eq (a b : Nat) (hb : b < 256) :
    (a <<< 8) ||| b = a * 256 + b := by
  apply Nat.eq_of_testBit_eq
  intro j
  rw [Nat.testBit_or, Nat.testBit_shiftLeft,
      show a * 256 + b = 2 ^ 8 * a + b by ring,
      Nat.testBit_mul_pow_two_add a (show b < 2 ^ 8 by omega) j]
  by_cases hj : j < 8
  · have hge : ¬ (8 ≤ j) := by omega
    simp [hj, hge]
  · have hge : 8 ≤ j := by omega
    have hbj : b < 2 ^ j :=
      lt_of_lt_of_le (show b < 2 ^ 8 by omega) (Nat.pow_le_pow_right (by omega) hge)
    simp [hj, hge, Nat.testBit_lt_two_pow hbj]

/-- Helper: the HL getter inverts the (spec-modelled) HL setter. -/
theorem get_hl_set_hl (r : Registers) (v : Nat) : (r.set_hl v).get_hl = v := by
  unfold Registers.set_hl Registers.get_hl
  rw [show ({ r with h := v / 256, l := v % 256 } : Registers).h = v / 256 from rfl,
      show ({ r with h := v / 256, l := v % 256 } : Registers).l = v % 256 from rfl,
      shiftLeft_eight_or_eq _ _ (Nat.mod_lt _ (by omega))]
  omega

/-- What claim C9 requires of one double add: carry iff the sum exceeds
0xFFFF, HL gets the low 16 bits of the sum, the other flags untouched. -/
def dad_spec (cpu : Cpu) (pairVal : Nat) (cpu1 : Cpu) : Prop :=
  (cpu1.flags.carry = true ↔ 0xFFFF < cpu.registers.get_hl + pairVal) ∧
  cpu1.registers.get_hl = (cpu.registers.get_hl + pairVal) % 65536 ∧
  cpu1.flags.zero = cpu.flags.zero ∧
  cpu1.flags.sign = cpu.flags.sign ∧
  cpu1.flags.parity = cpu.flags.parity ∧
  cpu1.flags.aux_carry = cpu.flags.aux_carry

/-- Claim C9: for every double-register add into HL (selectors BC, DE, HL,
stack pointer), carry is set true iff the 32-bit sum of HL and the selected
pair exceeds 0xFFFF, HL becomes the low 16 bits of that sum, and
zero/sign/parity/auxiliary-carry are left unchanged. -/
theorem c9_double_add (cpu : Cpu) :
    (∃ c1, cpu.double_add 0b001 = some c1 ∧ dad_spec cpu cpu.registers.get_bc c1) ∧
    (∃ c1, cpu.double_add 0b011 = some c1 ∧ dad_spec cpu cpu.registers.get_de c1) ∧
    (∃ c1, cpu.double_add 0b101 = some c1 ∧ dad_spec cpu cpu.registers.get_hl c1) ∧
    (∃ c1, cpu.double_add 0b111 = some c1 ∧ dad_spec cpu cpu.stack_pointer c1) := by
  refine ⟨⟨_, rfl, ?_⟩, ⟨_, rfl, ?_⟩, ⟨_, rfl, ?_⟩, ⟨_, rfl, ?_⟩⟩ <;>
    simp [dad_spec, Cpu.double_add, Flags.set_carry_on_double, get_hl_set_hl]

/-- Helper: fetch_operand_addressed_memory when both operand bytes are
present. -/
theorem fetch_operand_spec (cpu : Cpu) (lsb msb : Nat)
    (h1 : cpu.memory.fetch_byte_at_offset (cpu.program_counter + 1) = some lsb)
    (h2 : cpu.memory.fetch_byte_at_offset (cpu.program_counter + 2) = some msb) :
    cpu.fetch_operand_addressed_memory =
      some ((msb <<< 8) ||| lsb, { cpu with program_counter := cpu.program_counter + 2 }) := by
  unfold Cpu.fetch_operand_addressed_memory
  rw [h2, h1]

/-- The condition order claim C4 states for the jump family: selector 0 is
not-zero (or unconditional when the secondary discriminant says so), then
zero, no-carry, carry, no-parity, parity, no-sign, sign. -/
def jump_condition_spec (sel : Nat) (uncond : Bool) (f : Flags) : Bool :=
  if sel = 0 then (uncond || !f.zero)
  else if sel = 1 then f.zero
  else if sel = 2 then !f.carry
  else if sel = 3 then f.carry
  else if sel = 4 then !f.parity
  else if sel = 5 then f.parity
  else if sel = 6 then !f.sign
  else f.sign

/-- Claim C4: for each jump-family opcode, the tested condition is selected
by the first-operand field in the claimed order; when it holds, the program
counter lands at target+1 (target little-endian from the two bytes after
the opcode), otherwise it advances by exactly 3. -/
theorem c4_jump_family (cpu : Cpu) (v lsb msb : Nat)
    (hv : v = 0xc2 ∨ v = 0xc3 ∨ v = 0xca ∨ v = 0xd2 ∨ v = 0xda ∨
          v = 0xe2 ∨ v = 0xea ∨ v = 0xf2 ∨ v = 0xfa)
    (h1 : cpu.memory.fetch_byte_at_offset (cpu.program_counter + 1) = some lsb)
    (h2 : cpu.memory.fetch_byte_at_offset (cpu.program_counter + 2) = some msb) :
    ∃ c1, cpu.jump_to_address ⟨v⟩ = some c1 ∧
      c1.program_counter =
        if jump_condition_spec (OpCode.extract_first_operand ⟨v⟩) (v == 0xc3) cpu.flags
        then ((msb <<< 8) ||| lsb) + 1
        else cpu.program_counter + 3 := by
  have hf := fetch_operand_spec cpu lsb msb h1 h2
  rcases hv with rfl | rfl | rfl | rfl | rfl | rfl | rfl | rfl | rfl
  · simp only [Cpu.jump_to_address]
    rw [hf]
    cases hz : cpu.flags.zero <;>
      simp [show OpCode.extract_first_operand ⟨0xc2⟩ = 0 from rfl,
            show OpCode.extract_jmp_description ⟨0xc2⟩ = 0 from rfl,
            jump_condition_spec, hz, Nat.add_assoc]
  · simp only [Cpu.jump_to_address]
    rw [hf]
    simp [show OpCode.extract_first_operand ⟨0xc3⟩ = 0 from rfl,
          show OpCode.extract_jmp_description ⟨0xc3⟩ = 1 from rfl,
          jump_condition_spec, Nat.add_assoc]
  · simp only [Cpu.jump_to_address]
    rw [hf]
    cases hz : cpu.flags.zero <;>
      simp [show OpCode.extract_first_operand ⟨0xca⟩ = 1 from rfl,
            jump_condition_spec, hz, Nat.add_assoc]
  · simp only [Cpu.jump_to_address]
    rw [hf]
    cases hc : cpu.flags.carry <;>
      simp [show OpCode.extract_first_operand ⟨0xd2⟩ = 2 from rfl,
            jump_condition_spec, hc, Nat.add_assoc]
  · simp only [Cpu.jump_to_address]
    rw [hf]
    cases hc : cpu.flags.carry <;>
      simp [show OpCode.extract_first_operand ⟨0xda⟩ = 3 from rfl,
            jump_condition_spec, hc, Nat.add_assoc]
  · simp only [Cpu.jump_to_address]
    rw [hf]
    cases hp : cpu.flags.parity <;>
      simp [show OpCode.extract_first_operand ⟨0xe2⟩ = 4 from rfl,
            jump_condition_spec, hp, Nat.add_assoc]
  · simp only [Cpu.jump_to_address]
    rw [hf]
    cases hp : cpu.flags.parity <;>
      simp [show OpCode.extract_first_operand ⟨0xea⟩ = 5 from rfl,
            jump_condition_spec, hp, Nat.add_assoc]
  · simp only [Cpu.jump_to_address]
    rw [hf]
    cases hs : cpu.flags.sign <;>
      simp [show OpCode.extract_first_operand ⟨0xf2⟩ = 6 from rfl,
            jump_condition_spec, hs, Nat.add_assoc]
  · simp only [Cpu.jump_to_address]
    rw [hf]
    cases hs : cpu.flags.sign <;>
      simp [show OpCode.extract_first_operand ⟨0xfa⟩ = 7 from rfl,
            jump_condition_spec, hs, Nat.add_assoc]

/-- Claim C4 witness: the unconditional jump of the repo's own test image
[0xC3, 3, 0] lands the program counter at 3 + 1. -/
theorem c4_jump_family_witness :
    ∃ c1, (Cpu.new (Memory.new [0xc3, 3, 0])).jump_to_address ⟨0xc3⟩ = some c1 ∧
      c1.program_counter =
        if jump_condition_spec (OpCode.extract_first_operand ⟨0xc3⟩) (0xc3 == 0xc3)
            (Cpu.new (Memory.new [0xc3, 3, 0])).flags
        then ((0 <<< 8) ||| 3) + 1
        else (Cpu.new (Memory.new [0xc3, 3, 0])).program_counter + 3 :=
  c4_jump_family (Cpu.new (Memory.new [0xc3, 3, 0])) 0xc3 3 0
    (Or.inr (Or.inl rfl)) (by decide) (by decide)

/-- Helper: a successful set_memory_or_register changes at most the
destination cell and touches neither flags, stack pointer nor program
counter. -/
theorem set_memory_or_register_frame (cpu c2 : Cpu) (d val : Nat)
    (h : cpu.set_memory_or_register d val = some c2) :
    c2.flags = cpu.flags ∧ c2.stack_pointer = cpu.stack_pointer ∧
    c2.program_counter = cpu.program_counter ∧
    (d = 6 → c2.registers = cpu.registers ∧
      ∀ i, i ≠ cpu.registers.get_hl →
        c2.memory.fetch_byte_at_offset i = cpu.memory.fetch_byte_at_offset i) ∧
    (d ≠ 6 → c2.memory = cpu.memory ∧
      (d ≠ 0 → c2.registers.b = cpu.registers.b) ∧
      (d ≠ 1 → c2.registers.c = cpu.registers.c) ∧
      (d ≠ 2 → c2.registers.d = cpu.registers.d) ∧
      (d ≠ 3 → c2.registers.e = cpu.registers.e) ∧
      (d ≠ 4 → c2.registers.h = cpu.registers.h) ∧
      (d ≠ 5 → c2.registers.l = cpu.registers.l) ∧
      (d ≠ 7 → c2.registers.acc = cpu.registers.acc)) := by
  unfold Cpu.set_memory_or_register at h
  by_cases hd : d = 6
  · subst hd
    rw [if_pos rfl] at h
    cases hm : cpu.memory.set_byte_at_offset cpu.registers.get_hl val with
    | none => rw [hm] at h; cases h
    | some m =>
      rw [hm] at h
      injection h with h'
      subst h'
      unfold Memory.set_byte_at_offset at hm
      by_cases hlen : cpu.registers.get_hl < cpu.memory.mapping.length
      · rw [if_pos hlen] at hm
        injection hm with hm'
        refine ⟨rfl, rfl, rfl, fun _ => ⟨rfl, fun i hi => ?_⟩, fun hne => absurd rfl hne⟩
        show m.mapping[i]? = cpu.memory.mapping[i]?
        rw [← hm']
        exact List.getElem?_set_ne (Ne.symm hi)
      · rw [if_neg hlen] at hm; cases hm
  · rw [if_neg hd] at h
    cases hw : cpu.registers.write_register_address d val with
    | none => rw [hw] at h; cases h
    | some r =>
      rw [hw] at h
      injection h with h'
      subst h'
      unfold Registers.write_register_address at hw
      refine ⟨rfl, rfl, rfl, fun h6 => absurd h6 hd, fun _ => ?_⟩
      split_ifs at hw <;> first
        | exact Option.noConfusion hw
        | (injection hw with hr; subst hr; simp_all)

/-- Helper: a successful transfer advances the program counter by 1,
keeps flags and stack pointer, and changes at most the destination cell. -/
theorem transfer_frame (cpu c1 : Cpu) (op : OpCode)
    (h : cpu.transfer op = some c1) :
    c1.flags = cpu.flags ∧ c1.stack_pointer = cpu.stack_pointer ∧
    c1.program_counter = cpu.program_counter + 1 ∧
    (op.extract_first_operand = 6 → c1.registers = cpu.registers ∧
      ∀ i, i ≠ cpu.registers.get_hl →
        c1.memory.fetch_byte_at_offset i = cpu.memory.fetch_byte_at_offset i) ∧
    (op.extract_first_operand ≠ 6 → c1.memory = cpu.memory ∧
      (op.extract_first_operand ≠ 0 → c1.registers.b = cpu.registers.b) ∧
      (op.extract_first_operand ≠ 1 → c1.registers.c = cpu.registers.c) ∧
      (op.extract_first_operand ≠ 2 → c1.registers.d = cpu.registers.d) ∧
      (op.extract_first_operand ≠ 3 → c1.registers.e = cpu.registers.e) ∧
      (op.extract_first_operand ≠ 4 → c1.registers.h = cpu.registers.h) ∧
      (op.extract_first_operand ≠ 5 → c1.registers.l = cpu.registers.l) ∧
      (op.extract_first_operand ≠ 7 → c1.registers.acc = cpu.registers.acc)) := by
  unfold Cpu.transfer at h
  split at h
  · exact Option.noConfusion h
  · rename_i src hs
    split at h
    · exact Option.noConfusion h
    · rename_i c2 hset
      injection h with h'
      subst h'
      obtain ⟨hfl, hsp, hpc, h6, hn6⟩ :=
        set_memory_or_register_frame cpu c2 op.extract_first_operand src hset
      exact ⟨hfl, hsp,
        by rw [show ({ c2 with program_counter := c2.program_counter + 1 } : Cpu).program_counter
                  = c2.program_counter + 1 from rfl, hpc],
        h6, hn6⟩

/-- Claim C10: every transfer opcode in 0x40..0x7F other than 0x76, when it
executes successfully, leaves the five flags and the stack pointer
unchanged, advances the program counter by exactly 1, and modifies at most
the selected destination cell (the byte at HL when the destination selector
is 6, otherwise the one selected register). -/
theorem c10_transfer_opcodes_frame (cpu c1 : Cpu) (v : Nat)
    (hlo : 0x40 ≤ v) (hhi : v ≤ 0x7f) (hne : v ≠ 0x76)
    (h : cpu.execute ⟨v⟩ = Except.ok c1) :
    c1.flags = cpu.flags ∧ c1.stack_pointer = cpu.stack_pointer ∧
    c1.program_counter = cpu.program_counter + 1 ∧
    (OpCode.extract_first_operand ⟨v⟩ = 6 → c1.registers = cpu.registers ∧
      ∀ i, i ≠ cpu.registers.get_hl →
        c1.memory.fetch_byte_at_offset i = cpu.memory.fetch_byte_at_offset i) ∧
    (OpCode.extract_first_operand ⟨v⟩ ≠ 6 → c1.memory = cpu.memory ∧
      (OpCode.extract_first_operand ⟨v⟩ ≠ 0 → c1.registers.b = cpu.registers.b) ∧
      (OpCode.extract_first_operand ⟨v⟩ ≠ 1 → c1.registers.c = cpu.registers.c) ∧
      (OpCode.extract_first_operand ⟨v⟩ ≠ 2 → c1.registers.d = cpu.registers.d) ∧
      (OpCode.extract_first_operand ⟨v⟩ ≠ 3 → c1.registers.e = cpu.registers.e) ∧
      (OpCode.extract_first_operand ⟨v⟩ ≠ 4 → c1.registers.h = cpu.registers.h) ∧
      (OpCode.extract_first_operand ⟨v⟩ ≠ 5 → c1.registers.l = cpu.registers.l) ∧
      (OpCode.extract_first_operand ⟨v⟩ ≠ 7 → c1.registers.acc = cpu.registers.acc)) := by
  simp only [Cpu.execute] at h
  have h00 : ¬ (v = 0x00) := by omega
  have h37 : ¬ (v = 0x37) := by omega
  have h3f : ¬ (v = 0x3f) := by omega
  have h0a : ¬ (v = 0x0a ∨ v = 0x1a) := by omega
  have h32 : ¬ (v = 0x32) := by omega
  have h3a : ¬ (v = 0x3a) := by omega
  have hsg : ¬ (0x01 ≤ v ∧ v ≤ 0x3e) := by omega
  have htr : 0x40 ≤ v ∧ v ≤ 0x7f := ⟨hlo, hhi⟩
  rw [if_neg h00, if_neg h37, if_neg h3f, if_neg hne, if_neg h0a,
      if_neg h32, if_neg h3a, if_neg hsg, if_pos htr] at h
  cases ht : cpu.transfer ⟨v⟩ with
  | none => rw [ht] at h; exact Except.noConfusion (h : Except.error "panic" = Except.ok c1)
  | some c2 =>
    rw [ht] at h
    injection (h : Except.ok c2 = Except.ok c1) with h'
    subst h'
    exact transfer_frame cpu c2 ⟨v⟩ ht

/-- Claim C10 witness: opcode 0x50 (MOV D,B) on a fresh CPU with the
one-byte image [0x50]. -/
theorem c10_transfer_opcodes_frame_witness :
    ({ stack_pointer := 0, program_counter := 1, registers := Registers.new,
       flags := Flags.new, memory := Memory.new [0x50] } : Cpu).flags
        = (Cpu.new (Memory.new [0x50])).flags ∧
    ({ stack_pointer := 0, program_counter := 1, registers := Registers.new,
       flags := Flags.new, memory := Memory.new [0x50] } : Cpu).stack_pointer
        = (Cpu.new (Memory.new [0x50])).stack_pointer ∧
    ({ stack_pointer := 0, program_counter := 1, registers := Registers.new,
       flags := Flags.new, memory := Memory.new [0x50] } : Cpu).program_counter
        = (Cpu.new (Memory.new [0x50])).program_counter + 1 ∧
    ({ stack_pointer := 0, program_counter := 1, registers := Registers.new,
       flags := Flags.new, memory := Memory.new [0x50] } : Cpu).memory
        = (Cpu.new (Memory.new [0x50])).memory ∧
    ({ stack_pointer := 0, program_counter := 1, registers := Registers.new,
       flags := Flags.new, memory := Memory.new [0x50] } : Cpu).registers.b
        = (Cpu.new (Memory.new [0x50])).registers.b := by
  have T := c10_transfer_opcodes_frame (Cpu.new (Memory.new [0x50]))
    { stack_pointer := 0, program_counter := 1, registers := Registers.new,
      flags := Flags.new, memory := Memory.new [0x50] } 0x50
    (by decide) (by decide) (by decide) rfl
  exact ⟨T.1, T.2.1, T.2.2.1, (T.2.2.2.2 (by decide)).1, (T.2.2.2.2 (by decide)).2.1 (by decide)⟩
